import Mathlib

/-!
Shallow embedding of the data-viento dashboard refresh pipeline.

The embedded code lives in the repository's front-end scripts:
- the per-widget chart update functions (series transformers) from the
  dashboard charts file (src/unnamed/part_003);
- the `WeatherApiClient.fetchData` envelope validation from
  src/apps/web/js/auth.js;
- the orchestration functions `refreshAllCharts`, `handleLocationChange`
  and the per-domain `load*Data` functions from the dashboard logic file
  (src/unnamed/part_002).

JavaScript numbers are modelled as rationals (every value the claims
exercise is exact), JS `undefined`/`null` field values as `Option`, and
JS truthiness of numbers (`0` is falsy) and strings (`""` is falsy)
explicitly.
-/

/-- JS `v || null` on an optional numeric field: `undefined`, `null` and `0`
are falsy, so a missing field and a zero value both yield `null`;
any other number passes through. -/
def jsNumOrNull (v : Option ℚ) : Option ℚ :=
  match v with
  | some x => if x = 0 then none else some x
  | none => none

/-- JS `v || 0` on an optional numeric field: a missing field yields `0`;
a number passes through (a zero value yields `0 || 0 = 0`, i.e. itself). -/
def jsNumOrZero (v : Option ℚ) : ℚ :=
  match v with
  | some x => x
  | none => 0

/-- JS `v || dflt` on an optional string: `undefined`, `null` and the empty
string are falsy. -/
def jsStrOr (v : Option String) (dflt : String) : String :=
  match v with
  | some s => if s = "" then dflt else s
  | none => dflt

/-- The en-US short month names used by
`Date.toLocaleDateString("en-US", month short)`. -/
def monthShortNames : List String :=
  ["Jan", "Feb", "Mar", "Apr", "May", "Jun",
   "Jul", "Aug", "Sep", "Oct", "Nov", "Dec"]

/-- JS `String.prototype.split(sep)` for a one-character separator, on the
character list of the string (structurally recursive so that concrete
dates evaluate inside proofs). -/
def splitOnChar (sep : Char) : List Char → List (List Char)
  | [] => [[]]
  | c :: cs =>
    let r := splitOnChar sep cs
    if c = sep then [] :: r
    else
      match r with
      | [] => [[c]]
      | g :: gs => (c :: g) :: gs

/-- JS `parseInt` on one date-string part.  Modelled for the all-digit
parts the date strings carry: a nonempty digit string parses to its value,
anything else to `none` (JS `NaN`, which makes the `Date` invalid).  JS
would additionally accept signs, whitespace and trailing garbage; no date
string in the pipeline has them. -/
def digitsToNat? (cs : List Char) : Option ℕ :=
  if cs = [] then none
  else if cs.all (fun c => c.isDigit) then
    some (cs.foldl (fun n c => 10 * n + (c.toNat - 48)) 0)
  else none

/-- The date-label computation every daily transformer performs:
`valid_date.split('-')`, `parseInt` of each part, `new Date(Date.UTC(year,
month-1, day))`, then `toLocaleDateString("en-US", month short / day
numeric / timeZone UTC)`.  The string is split into calendar fields
directly, with no local-time shift, exactly as `Date.UTC` plus the
`timeZone: UTC` render option behave.  `Date.UTC` month normalisation is
modelled (month index is reduced mod 12; a `0` month means December of the
previous year); an unparseable part makes the JS `Date` invalid, rendered
as the literal string Invalid Date.  Day numbers are modelled verbatim,
which agrees with JS for days valid within their month — every date the
code receives. -/
def formatUtcShortDate (dateStr : String) : String :=
  match (splitOnChar '-' dateStr.toList).map digitsToNat? with
  | [some _year, some month, some day] =>
      (if month = 0 then "Dec" else monthShortNames.getD ((month - 1) % 12) "Dec")
        ++ " " ++ toString day
  | _ => "Invalid Date"

/-- One record of a daily payload (`data` array element).  Fields the
embedded transformers read; a field absent from a given endpoint's records
is simply `none` (JS `undefined`). -/
structure DailyRecord where
  valid_date : String
  temperature_2m_max : Option ℚ
  temperature_2m_min : Option ℚ
  precipitation_sum : Option ℚ
  precipitation_probability_max : Option ℚ
  wave_height_max : Option ℚ
  swell_wave_height_max : Option ℚ
  wind_wave_height_max : Option ℚ
deriving DecidableEq, Repr

/-- A daily record with every numeric field missing, for building concrete
payloads concisely. -/
def emptyRecord (dateStr : String) : DailyRecord :=
  ⟨dateStr, none, none, none, none, none, none, none⟩

/-- The mutable data of one Chart.js instance as the update functions see
it: `chart.data.labels` and the `data` array of each dataset.  A dataset
entry is `none` where the code stored JS `null` (Chart.js renders a gap). -/
structure ChartData where
  labels : List String
  datasets : List (List (Option ℚ))
deriving DecidableEq, Repr

/-- `updateWeatherDailyChart(apiData)` from the dashboard charts file.
The module-level chart variable is the `Option ChartData` argument
(`none` when the chart was never created or was torn down).
Faithful to the source: guard `if (!weatherDailyChart) return`, guard
`if (!apiData || apiData.length === 0) return` (both guards leave the
chart untouched), then per record a UTC short date label,
`temperature_2m_max || null` and `temperature_2m_min || null`, written
into `labels`, `datasets[0].data`, `datasets[1].data`. -/
def updateWeatherDailyChart (chart : Option ChartData)
    (apiData : Option (List DailyRecord)) : Option ChartData :=
  match chart with
  | none => none
  | some c =>
    match apiData with
    | none => some c
    | some recs =>
      if recs.length = 0 then some c
      else
        some ⟨recs.map (fun day => formatUtcShortDate day.valid_date),
              [recs.map (fun day => jsNumOrNull day.temperature_2m_max),
               recs.map (fun day => jsNumOrNull day.temperature_2m_min)]⟩

/-- `updateWeatherPrecipChart(apiData)` from the dashboard charts file:
same guards, then per record `precipitation_sum || 0` and
`precipitation_probability_max || 0`. -/
def updateWeatherPrecipChart (chart : Option ChartData)
    (apiData : Option (List DailyRecord)) : Option ChartData :=
  match chart with
  | none => none
  | some c =>
    match apiData with
    | none => some c
    | some recs =>
      if recs.length = 0 then some c
      else
        some ⟨recs.map (fun day => formatUtcShortDate day.valid_date),
              [recs.map (fun day => some (jsNumOrZero day.precipitation_sum)),
               recs.map (fun day => some (jsNumOrZero day.precipitation_probability_max))]⟩

/-- `updateMarineDailyWaveChart(apiData)` from the dashboard charts file:
same guards, then per record `wave_height_max || 0`,
`swell_wave_height_max || 0`, `wind_wave_height_max || 0`. -/
def updateMarineDailyWaveChart (chart : Option ChartData)
    (apiData : Option (List DailyRecord)) : Option ChartData :=
  match chart with
  | none => none
  | some c =>
    match apiData with
    | none => some c
    | some recs =>
      if recs.length = 0 then some c
      else
        some ⟨recs.map (fun day => formatUtcShortDate day.valid_date),
              [recs.map (fun day => some (jsNumOrZero day.wave_height_max)),
               recs.map (fun day => some (jsNumOrZero day.swell_wave_height_max)),
               recs.map (fun day => some (jsNumOrZero day.wind_wave_height_max))]⟩

/-- First label of a chart, `chart.data.labels[0]`. -/
def firstLabel (c : ChartData) : Option String :=
  c.labels.head?

/-- First point of dataset `i`, `chart.data.datasets[i].data[0]`. -/
def firstPoint (c : ChartData) (i : ℕ) : Option (Option ℚ) :=
  (c.datasets.getD i []).head?

/-!
The API client (`WeatherApiClient` in src/apps/web/js/auth.js).
-/

/-- The failure classes `fetchData` can throw, each carrying the JS
`Error.message` the dashboard later displays. -/
inductive FetchError where
  | noToken
  | authFailed
  | upstream (msg : String)
  | network
deriving DecidableEq, Repr

/-- The `Error.message` string of each failure, as the `catch (error)`
blocks in the dashboard see it (`error.message`).  A rejected `fetch` in a
browser carries the TypeError message Failed to fetch. -/
def FetchError.message : FetchError → String
  | .noToken => "No authentication token found"
  | .authFailed => "Authentication failed"
  | .upstream msg => msg
  | .network => "Failed to fetch"

/-- The uniform response envelope every backend endpoint returns:
`success`, `data` (possibly `null`), optional `detail`. -/
structure Envelope (α : Type) where
  success : Bool
  data : Option α
  detail : Option String
deriving DecidableEq, Repr

/-- One HTTP response as `fetch` resolves it: `ok`, `status`, `statusText`,
and the body as the envelope it parses to (`none` when `response.json()`
would reject). -/
structure HttpResponse (α : Type) where
  ok : Bool
  status : ℕ
  statusText : String
  parsedBody : Option (Envelope α)

/-- `WeatherApiClient.fetchData(endpoint)` from src/apps/web/js/auth.js.
Inputs: the stored bearer token (`localStorage.getItem("access_token")`,
`none` when absent) and the network's behaviour for this request (`none`
when `fetch` rejects, i.e. transport failure).  Output: the thrown error
or the returned envelope, paired with whether an HTTP request was issued
at all.  Faithful to the source, in order: missing token throws before
`fetch`; a rejected `fetch` propagates through the catch-and-rethrow;
non-ok status 401 throws Authentication failed (after the token-clearing
redirect side effect, outside this model); other non-ok statuses throw
`errorData.detail || HTTP status: statusText` where `errorData` is the
parsed body or `{}` on parse failure; an ok response whose body does not
parse rejects inside `response.json()`; `success: false` throws
`data.detail || API returned unsuccessful response`; otherwise the
envelope is returned. -/
def fetchData {α : Type} (token : Option String)
    (net : Option (HttpResponse α)) : Except FetchError (Envelope α) × Bool :=
  match token with
  | none => (.error .noToken, false)
  | some _ =>
    match net with
    | none => (.error .network, true)
    | some resp =>
      if resp.ok = false then
        if resp.status = 401 then (.error .authFailed, true)
        else
          (.error (.upstream (jsStrOr (resp.parsedBody.bind (fun e => e.detail))
            ("HTTP " ++ toString resp.status ++ ": " ++ resp.statusText))), true)
      else
        match resp.parsedBody with
        | none => (.error .network, true)
        | some env =>
          if env.success = false then
            (.error (.upstream (jsStrOr env.detail "API returned unsuccessful response")), true)
          else (.ok env, true)

/-- The endpoint path `WeatherApiClient.fetchClimateProjection(locationId)`
passes to `fetchData`. -/
def climateProjectionPath (locationId : ℕ) : String :=
  "/climate/projection/" ++ toString locationId

/-- The request path resulting from the dashboard's call
`fetchClimateProjection(locationId, model, startDate, endDate)`
(src/unnamed/part_002, loadClimateProjectionData).  The method's signature
in auth.js binds only `locationId`; JavaScript silently drops the extra
arguments, so the path is built from the location id alone. -/
def fetchClimateProjectionRequestPath (locationId : ℕ)
    (_modelId _startDate _endDate : String) : String :=
  climateProjectionPath locationId

/-!
The per-domain load functions and the dashboard state they touch
(src/unnamed/part_002).  One representative widget area per domain:
daily weather (temperature and precipitation charts), current air quality
(card container), daily marine (wave chart), daily satellite (chart),
climate projection (model-info container).  The state also carries a
shared banner slot to express that no code path ever writes a global
error display: the page has no such element and none of the functions
reference one.
-/

/-- The fields of the current air-quality payload the card renderer reads
(`updateCurrentAirQualityCards`); the rendering itself is a black box to the
orchestration, so the payload is kept as data. -/
structure CurrentAirQuality where
  european_aqi : Option ℚ
  pm2_5 : Option ℚ
  pm10 : Option ℚ
deriving DecidableEq, Repr

/-- The fields of the climate projection payload the dashboard reads
(`updateClimateModelInfo` and the climate charts). -/
structure ClimateProjection where
  model_name : String
  model_code : String
  start_date : String
  end_date : String
  total_days : ℕ
deriving DecidableEq, Repr

/-- The content of a card container in the page: still showing its initial
loading markup, rendered from a payload, or showing the inline error
markup the `show*Error` helpers write. -/
inductive Slot (α : Type) where
  | loadingState
  | content (payload : α)
  | errorMsg (msg : String)
deriving DecidableEq, Repr

/-- The dashboard state the five embedded load functions touch: one chart
or card container per domain, plus the (nonexistent, hence never-written)
shared global banner. -/
structure DashState where
  weatherDailyChart : Option ChartData
  weatherPrecipChart : Option ChartData
  currentAirQualityCards : Slot CurrentAirQuality
  marineDailyWaveChart : Option ChartData
  satelliteDailyChart : Option ChartData
  climateModelInfo : Slot ClimateProjection
  globalErrorBanner : Option String
deriving DecidableEq, Repr

/-- `loadDailyWeatherData` (src/unnamed/part_002) from the point its fetch
settles: its `catch (error)` block only logs (no state is touched); a
falsy `response.data` only warns; truthy data is fed to
`updateWeatherDailyChart` and `updateWeatherPrecipChart` (the UV and wind
charts follow the identical pattern and are elided). -/
def loadDailyWeatherStep (s : DashState)
    (outcome : Except FetchError (Envelope (List DailyRecord))) : DashState :=
  match outcome with
  | .error _ => s
  | .ok resp =>
    match resp.data with
    | none => s
    | some recs =>
      { s with
        weatherDailyChart := updateWeatherDailyChart s.weatherDailyChart (some recs),
        weatherPrecipChart := updateWeatherPrecipChart s.weatherPrecipChart (some recs) }

/-- `loadCurrentAirQualityData` (src/unnamed/part_002): on a thrown error,
`showCurrentAirQualityError(error.message)` rewrites the air-quality card
container only; falsy data shows No data available there; truthy data is
rendered into the same container. -/
def loadCurrentAirQualityStep (s : DashState)
    (outcome : Except FetchError (Envelope CurrentAirQuality)) : DashState :=
  match outcome with
  | .error e => { s with currentAirQualityCards := .errorMsg e.message }
  | .ok resp =>
    match resp.data with
    | none => { s with currentAirQualityCards := .errorMsg "No data available" }
    | some d => { s with currentAirQualityCards := .content d }

/-- `loadDailyMarineData` (src/unnamed/part_002): its catch block only
logs; falsy data only warns; truthy data is fed to
`updateMarineDailyWaveChart` (the period chart follows the identical
pattern and is elided). -/
def loadDailyMarineStep (s : DashState)
    (outcome : Except FetchError (Envelope (List DailyRecord))) : DashState :=
  match outcome with
  | .error _ => s
  | .ok resp =>
    match resp.data with
    | none => s
    | some recs =>
      { s with
        marineDailyWaveChart := updateMarineDailyWaveChart s.marineDailyWaveChart (some recs) }

/-- One record of the satellite daily payload: a `created_at` ISO
timestamp and the radiation fields the radiation chart reads. -/
structure SatelliteRecord where
  created_at : String
  shortwave_radiation : Option ℚ
  direct_radiation : Option ℚ
  diffuse_radiation : Option ℚ
deriving DecidableEq, Repr

/-- The date label `updateSatelliteDailyRadiationChart` computes from
`created_at`: `new Date(timestamp)` rendered as an en-US short month/day
label in the UTC zone.  Modelled for an environment whose local zone is
UTC (the timestamp carries no zone designator, so JS parses it as local
time): the calendar-date part before the `T` separator is rendered. -/
def formatCreatedAtLabel (ts : String) : String :=
  formatUtcShortDate (String.mk ((splitOnChar 'T' ts.toList).headD ts.toList))

/-- `updateSatelliteDailyRadiationChart(apiData)` from the dashboard
charts file: the usual two guards, then the records sorted ascending by
`new Date(created_at)` — for the uniform ISO timestamps the backend
emits, this is lexicographic order on the strings, and `Array.sort` is
stable — then per record a label from `created_at` and
`shortwave_radiation || 0`, `direct_radiation || 0`,
`diffuse_radiation || 0`. -/
def updateSatelliteDailyRadiationChart (chart : Option ChartData)
    (apiData : Option (List SatelliteRecord)) : Option ChartData :=
  match chart with
  | none => none
  | some c =>
    match apiData with
    | none => some c
    | some recs =>
      if recs.length = 0 then some c
      else
        let sortedData := recs.mergeSort (fun a b => a.created_at ≤ b.created_at)
        some ⟨sortedData.map (fun day => formatCreatedAtLabel day.created_at),
              [sortedData.map (fun day => some (jsNumOrZero day.shortwave_radiation)),
               sortedData.map (fun day => some (jsNumOrZero day.direct_radiation)),
               sortedData.map (fun day => some (jsNumOrZero day.diffuse_radiation))]⟩

/-- `loadDailySatelliteData` (src/unnamed/part_002): its catch block only
logs; falsy data only warns; truthy data is fed to
`updateSatelliteDailyRadiationChart` (the irradiance chart follows the
identical pattern and is elided). -/
def loadDailySatelliteStep (s : DashState)
    (outcome : Except FetchError (Envelope (List SatelliteRecord))) : DashState :=
  match outcome with
  | .error _ => s
  | .ok resp =>
    match resp.data with
    | none => s
    | some recs =>
      { s with
        satelliteDailyChart :=
          updateSatelliteDailyRadiationChart s.satelliteDailyChart (some recs) }

/-- `loadClimateProjectionData` (src/unnamed/part_002): on a thrown error,
`showClimateError(error.message)` rewrites the climate model-info
container only; falsy data shows No data available for this location
there; truthy data is rendered into the same container (and the climate
charts, elided). -/
def loadClimateProjectionStep (s : DashState)
    (outcome : Except FetchError (Envelope ClimateProjection)) : DashState :=
  match outcome with
  | .error e => { s with climateModelInfo := .errorMsg e.message }
  | .ok resp =>
    match resp.data with
    | none => { s with climateModelInfo := .errorMsg "No data available for this location" }
    | some d => { s with climateModelInfo := .content d }

/-- The settled outcome of each domain's fetch within one refresh cycle. -/
structure CycleOutcomes where
  weather : Except FetchError (Envelope (List DailyRecord))
  air : Except FetchError (Envelope CurrentAirQuality)
  marine : Except FetchError (Envelope (List DailyRecord))
  satellite : Except FetchError (Envelope (List SatelliteRecord))
  climate : Except FetchError (Envelope ClimateProjection)

/-- One refresh cycle's effect on the dashboard state: `refreshAllCharts`
(src/unnamed/part_002) launches every domain's load function; each settles
independently and touches only its own widget area.  The composition order
is irrelevant because the per-domain steps write disjoint fields; it is
fixed here in the source's call order.  The function is total: every
domain's failure is consumed as a value (each load function catches its
own errors), so no outcome makes the cycle throw. -/
def refreshCycleApply (s : DashState) (o : CycleOutcomes) : DashState :=
  loadClimateProjectionStep
    (loadDailySatelliteStep
      (loadDailyMarineStep
        (loadCurrentAirQualityStep
          (loadDailyWeatherStep s o.weather) o.air) o.marine) o.satellite) o.climate

/-!
The orchestration-level model (src/unnamed/part_002): the module variables
`activeLocationId` and `userLocations`, the in-flight fetches each
`refreshAllCharts` invocation launches, and what happens when a response
arrives.  The daily-weather pipeline stands for each of the ten identical
launch/arrive pairs.  A pending fetch is tagged, for bookkeeping of the
model only, with the number of the `refreshAllCharts` invocation that
launched it — the source code itself keeps no such tag, which is exactly
what the arrival behaviour below exhibits.
-/

/-- One entry of the `userLocations` array: the user's binding id and the
backend location row id. -/
structure UserLocation where
  user_location_id : ℕ
  location_id : ℕ
deriving DecidableEq, Repr

/-- A fetch in flight: which `refreshAllCharts` invocation launched it
(model bookkeeping) and the backend `location_id` resolved at launch. -/
structure PendingFetch where
  cycle : ℕ
  locationId : ℕ
deriving DecidableEq, Repr, BEq

/-- The orchestration state: the active user-location cell, the saved
locations, the daily-weather chart, the set of in-flight daily-weather
fetches, and the count of `refreshAllCharts` invocations so far. -/
structure OrchState where
  activeLocationId : Option ℕ
  userLocations : List UserLocation
  weatherDailyChart : Option ChartData
  pending : List PendingFetch
  cycleCount : ℕ
deriving DecidableEq, Repr

/-- The launch half of `loadDailyWeatherData`: bail out when no active
location is set or when it does not resolve against `userLocations`;
otherwise issue the fetch for the resolved `location_id` (it joins the
in-flight set).  Run by `refreshAllCharts` unconditionally. -/
def launchDailyWeather (s : OrchState) : OrchState :=
  match s.activeLocationId with
  | none => s
  | some act =>
    match s.userLocations.find? (fun ul => ul.user_location_id == act) with
    | none => s
    | some ul =>
      { s with pending := s.pending ++ [⟨s.cycleCount, ul.location_id⟩] }

/-- `refreshAllCharts` (src/unnamed/part_002) at the orchestration level:
it reads no guard state — there is no Idle/Refreshing variable anywhere in
the source — and synchronously launches every domain load (represented by
the daily-weather launch), then returns; the only other effect is the
spinner class on the refresh button.  The invocation counter is model
bookkeeping. -/
def refreshAllChartsO (s : OrchState) : OrchState :=
  let s1 := launchDailyWeather s
  { s1 with cycleCount := s.cycleCount + 1 }

/-- `handleLocationChange` (src/unnamed/part_002): parse the selector
value (`none` models `parseInt` yielding `NaN`; `0` is also falsy in the
`if (!selectedId) return` guard), assign `activeLocationId`, and call
`refreshAllCharts`.  Nothing is done about fetches already in flight. -/
def handleLocationChangeO (s : OrchState) (selectedId : Option ℕ) : OrchState :=
  match selectedId with
  | none => s
  | some sel =>
    if sel = 0 then s
    else refreshAllChartsO { s with activeLocationId := some sel }

/-- The arrival half of `loadDailyWeatherData`: the code after
`await fetchDailyForecast(...)` runs when the response for that fetch
arrives and applies it directly — `if (response && response.data)` then
`updateWeatherDailyChart(response.data)`; a thrown error is caught and
only logged.  Nothing is compared against the current cycle or the
current active location. -/
def applyDailyWeatherResponse (chart : Option ChartData)
    (outcome : Except FetchError (Envelope (List DailyRecord))) : Option ChartData :=
  match outcome with
  | .error _ => chart
  | .ok resp =>
    match resp.data with
    | none => chart
    | some recs => updateWeatherDailyChart chart (some recs)

/-- The arrival of the response for one pending fetch: the fetch leaves
the in-flight set and its result is applied unconditionally, exactly as
the continuation after the `await` does in the source. -/
def settleDailyWeather (s : OrchState) (req : PendingFetch)
    (outcome : Except FetchError (Envelope (List DailyRecord))) : OrchState :=
  if s.pending.contains req then
    { s with
      pending := s.pending.erase req,
      weatherDailyChart := applyDailyWeatherResponse s.weatherDailyChart outcome }
  else s

/-!
Per-field normal forms of one cycle (used to factor the isolation proof),
and the concrete states the settled claims are evaluated on.
-/

/-- The daily-weather temperature chart after its domain settles. -/
def weatherDailyAfter (c : Option ChartData) :
    Except FetchError (Envelope (List DailyRecord)) → Option ChartData
  | .error _ => c
  | .ok resp =>
    match resp.data with
    | none => c
    | some recs => updateWeatherDailyChart c (some recs)

/-- The precipitation chart after the weather domain settles. -/
def weatherPrecipAfter (c : Option ChartData) :
    Except FetchError (Envelope (List DailyRecord)) → Option ChartData
  | .error _ => c
  | .ok resp =>
    match resp.data with
    | none => c
    | some recs => updateWeatherPrecipChart c (some recs)

/-- The air-quality card container after its domain settles; it depends on
the outcome alone. -/
def airCardsAfter : Except FetchError (Envelope CurrentAirQuality) → Slot CurrentAirQuality
  | .error e => .errorMsg e.message
  | .ok resp =>
    match resp.data with
    | none => .errorMsg "No data available"
    | some d => .content d

/-- The marine wave chart after its domain settles. -/
def marineWaveAfter (c : Option ChartData) :
    Except FetchError (Envelope (List DailyRecord)) → Option ChartData
  | .error _ => c
  | .ok resp =>
    match resp.data with
    | none => c
    | some recs => updateMarineDailyWaveChart c (some recs)

/-- The satellite radiation chart after its domain settles. -/
def satelliteAfter (c : Option ChartData) :
    Except FetchError (Envelope (List SatelliteRecord)) → Option ChartData
  | .error _ => c
  | .ok resp =>
    match resp.data with
    | none => c
    | some recs => updateSatelliteDailyRadiationChart c (some recs)

/-- The climate model-info container after its domain settles; it depends
on the outcome alone. -/
def climateInfoAfter : Except FetchError (Envelope ClimateProjection) → Slot ClimateProjection
  | .error e => .errorMsg e.message
  | .ok resp =>
    match resp.data with
    | none => .errorMsg "No data available for this location"
    | some d => .content d

/-- A freshly created chart: empty labels, two datasets with no points
(how `createWeatherDailyChart` leaves the instance before any data). -/
def chart0 : ChartData :=
  ⟨[], [[], []]⟩

/-- Daily record returned for the first location in the race trace. -/
def recA : DailyRecord :=
  ⟨"2025-01-01", some 10, some 5, none, none, none, none, none⟩

/-- Daily record returned for the second location in the race trace. -/
def recB : DailyRecord :=
  ⟨"2025-02-02", some 20, some 15, none, none, none, none, none⟩

/-- A successful daily-weather response carrying the given records. -/
def okDaily (recs : List DailyRecord) : Except FetchError (Envelope (List DailyRecord)) :=
  .ok ⟨true, some recs, none⟩

/-- Race trace, start: two saved locations, the first one active, the
daily chart created, nothing in flight. -/
def c1s0 : OrchState :=
  ⟨some 1, [⟨1, 100⟩, ⟨2, 200⟩], some chart0, [], 0⟩

/-- Race trace: cycle 0 launched for the first location. -/
def c1s1 : OrchState :=
  refreshAllChartsO c1s0

/-- Race trace: the user switches to the second location before cycle 0
settles; `handleLocationChange` starts cycle 1 for it. -/
def c1s2 : OrchState :=
  handleLocationChangeO c1s1 (some 2)

/-- Race trace: cycle 1's response (for the new location) arrives first
and is applied. -/
def c1s3 : OrchState :=
  settleDailyWeather c1s2 ⟨1, 200⟩ (okDaily [recB])

/-- Race trace: cycle 0's stale response (for the previous location)
arrives last. -/
def c1s4 : OrchState :=
  settleDailyWeather c1s3 ⟨0, 100⟩ (okDaily [recA])

/-- A state in which a refresh cycle is in progress: one fetch of cycle 0
still pending. -/
def c2state : OrchState :=
  ⟨some 1, [⟨1, 100⟩], some chart0, [⟨0, 100⟩], 1⟩

/-- A chart currently showing one day of data. -/
def c4chart : ChartData :=
  ⟨["Nov 11"], [[some 20], [some 10]]⟩

/-- A dashboard state whose daily weather chart shows `c4chart` and whose
other areas are in their initial state. -/
def c4state : DashState :=
  ⟨some c4chart, some c4chart, .loadingState, none, none, .loadingState, none⟩

/-- The first daily record of the end-to-end scenario: valid_date
2025-11-12, max 21.4, min 11.0. -/
def c5record : DailyRecord :=
  ⟨"2025-11-12", some (21.4 : ℚ), some (11.0 : ℚ), none, none, none, none, none⟩

/-!
Helper lemmas: each load step in update form, and the normal form of a
whole cycle.
-/

theorem loadDailyWeatherStep_eq (s : DashState)
    (o : Except FetchError (Envelope (List DailyRecord))) :
    loadDailyWeatherStep s o =
      { s with
        weatherDailyChart := weatherDailyAfter s.weatherDailyChart o,
        weatherPrecipChart := weatherPrecipAfter s.weatherPrecipChart o } := by
  rcases o with e | ⟨su, d, t⟩
  · rfl
  · cases d <;> rfl

theorem loadCurrentAirQualityStep_eq (s : DashState)
    (o : Except FetchError (Envelope CurrentAirQuality)) :
    loadCurrentAirQualityStep s o =
      { s with currentAirQualityCards := airCardsAfter o } := by
  rcases o with e | ⟨su, d, t⟩
  · rfl
  · cases d <;> rfl

theorem loadDailyMarineStep_eq (s : DashState)
    (o : Except FetchError (Envelope (List DailyRecord))) :
    loadDailyMarineStep s o =
      { s with marineDailyWaveChart := marineWaveAfter s.marineDailyWaveChart o } := by
  rcases o with e | ⟨su, d, t⟩
  · rfl
  · cases d <;> rfl

theorem loadDailySatelliteStep_eq (s : DashState)
    (o : Except FetchError (Envelope (List SatelliteRecord))) :
    loadDailySatelliteStep s o =
      { s with satelliteDailyChart := satelliteAfter s.satelliteDailyChart o } := by
  rcases o with e | ⟨su, d, t⟩
  · rfl
  · cases d <;> rfl

theorem loadClimateProjectionStep_eq (s : DashState)
    (o : Except FetchError (Envelope ClimateProjection)) :
    loadClimateProjectionStep s o =
      { s with climateModelInfo := climateInfoAfter o } := by
  rcases o with e | ⟨su, d, t⟩
  · rfl
  · cases d <;> rfl

theorem refreshCycleApply_eq (s : DashState) (o : CycleOutcomes) :
    refreshCycleApply s o =
      { s with
        weatherDailyChart := weatherDailyAfter s.weatherDailyChart o.weather,
        weatherPrecipChart := weatherPrecipAfter s.weatherPrecipChart o.weather,
        currentAirQualityCards := airCardsAfter o.air,
        marineDailyWaveChart := marineWaveAfter s.marineDailyWaveChart o.marine,
        satelliteDailyChart := satelliteAfter s.satelliteDailyChart o.satellite,
        climateModelInfo := climateInfoAfter o.climate } := by
  rw [refreshCycleApply, loadDailyWeatherStep_eq, loadCurrentAirQualityStep_eq,
    loadDailyMarineStep_eq, loadDailySatelliteStep_eq, loadClimateProjectionStep_eq]

/-!
Settled claims.
-/

/-- C6: for every domain fetch invoked while no bearer credential is
stored, `fetchData` fails immediately with the authentication error
No authentication token found, and no HTTP request is issued. -/
theorem c6_missing_token_no_request {α : Type} (net : Option (HttpResponse α)) :
    fetchData none net = (Except.error FetchError.noToken, false) ∧
      FetchError.noToken.message = "No authentication token found" :=
  ⟨rfl, rfl⟩

/-- C7: evidence for the claim's failure in the code.  The dashboard calls
`fetchClimateProjection(locationId, model, startDate, endDate)`, but the
client method binds only `locationId`, so the issued request path is
`/climate/projection/id` whatever model identifier and date range were
passed: the extra parameters are not carried in the request. -/
theorem c7_climate_params_dropped (modelId startDate endDate : String) :
    fetchClimateProjectionRequestPath 5 modelId startDate endDate
      = "/climate/projection/5" ∧
    fetchClimateProjectionRequestPath 5 "EC_Earth3P_HR" "2022-01-01" "2026-12-31"
      = climateProjectionPath 5 :=
  ⟨rfl, rfl⟩

/-- C10: every embedded chart data-update function is a total no-op when
its backing chart instance has not been created (or has been torn down,
i.e. the module-level chart variable is not an object): for every payload
it returns without effect and the chart stays absent. -/
theorem c10_chart_absent_noop (d : Option (List DailyRecord))
    (ds : Option (List SatelliteRecord)) :
    updateWeatherDailyChart none d = none ∧
    updateWeatherPrecipChart none d = none ∧
    updateMarineDailyWaveChart none d = none ∧
    updateSatelliteDailyRadiationChart none ds = none :=
  ⟨rfl, rfl, rfl, rfl⟩

/-- C9: replacing a widget's data twice with an identical series value is
idempotent — the second call produces no net change from the first: for
every chart state and every payload, each embedded data-update function
applied twice equals itself applied once (same rendered labels and
values). -/
theorem c9_update_idempotent (chart : Option ChartData)
    (d : Option (List DailyRecord)) (ds : Option (List SatelliteRecord)) :
    updateWeatherDailyChart (updateWeatherDailyChart chart d) d
        = updateWeatherDailyChart chart d ∧
    updateWeatherPrecipChart (updateWeatherPrecipChart chart d) d
        = updateWeatherPrecipChart chart d ∧
    updateMarineDailyWaveChart (updateMarineDailyWaveChart chart d) d
        = updateMarineDailyWaveChart chart d ∧
    updateSatelliteDailyRadiationChart (updateSatelliteDailyRadiationChart chart ds) ds
        = updateSatelliteDailyRadiationChart chart ds := by
  rcases chart with _ | c
  · exact ⟨rfl, rfl, rfl, rfl⟩
  · refine ⟨?_, ?_, ?_, ?_⟩
    · rcases d with _ | recs
      · rfl
      · by_cases h : recs.length = 0 <;>
          simp [updateWeatherDailyChart, h]
    · rcases d with _ | recs
      · rfl
      · by_cases h : recs.length = 0 <;>
          simp [updateWeatherPrecipChart, h]
    · rcases d with _ | recs
      · rfl
      · by_cases h : recs.length = 0 <;>
          simp [updateMarineDailyWaveChart, h]
    · rcases ds with _ | recs
      · rfl
      · by_cases h : recs.length = 0 <;>
          simp [updateSatelliteDailyRadiationChart, h]

/-- C5: for a daily weather payload whose first record is valid_date
2025-11-12, temperature_2m_max 21.4, temperature_2m_min 11.0, the daily
temperature widget's max-series first point equals 21.4 and its first
label is Nov 12 — the date taken as a UTC calendar day (the label is
computed from the date string's own fields, never shifted) and rendered
as a short month/day label. -/
theorem c5_daily_first_point (c : ChartData) (rest : List DailyRecord) :
    ∃ c', updateWeatherDailyChart (some c) (some (c5record :: rest)) = some c' ∧
      firstLabel c' = some "Nov 12" ∧
      firstPoint c' 0 = some (some (21.4 : ℚ)) := by
  refine ⟨_, rfl, ?_, ?_⟩
  · rfl
  · simp [updateWeatherDailyChart, firstPoint, c5record, jsNumOrNull]
    norm_num

/-- C8: in every transformed daily payload, a missing numeric field
defaults to 0 for the naturally zero-based quantities (precipitation sum,
wave height) and to the series-not-available marker null for temperature,
where zero is a valid-but-different reading: shown on the first record of
the payload for each of the three transformers. -/
theorem c8_missing_field_defaults (r : DailyRecord) (c : ChartData)
    (rest : List DailyRecord)
    (hp : r.precipitation_sum = none)
    (ht : r.temperature_2m_max = none)
    (hw : r.wave_height_max = none) :
    (∃ c', updateWeatherPrecipChart (some c) (some (r :: rest)) = some c' ∧
      firstPoint c' 0 = some (some 0)) ∧
    (∃ c', updateWeatherDailyChart (some c) (some (r :: rest)) = some c' ∧
      firstPoint c' 0 = some none) ∧
    (∃ c', updateMarineDailyWaveChart (some c) (some (r :: rest)) = some c' ∧
      firstPoint c' 0 = some (some 0)) := by
  refine ⟨⟨_, rfl, ?_⟩, ⟨_, rfl, ?_⟩, ⟨_, rfl, ?_⟩⟩
  · simp [updateWeatherPrecipChart, firstPoint, hp, jsNumOrZero]
  · simp [updateWeatherDailyChart, firstPoint, ht, jsNumOrNull]
  · simp [updateMarineDailyWaveChart, firstPoint, hw, jsNumOrZero]

/-- C8 witness: the defaults evaluated on a concrete record with every
numeric field missing. -/
theorem c8_missing_field_defaults_witness :
    (emptyRecord "2025-11-12").precipitation_sum = none ∧
    (emptyRecord "2025-11-12").temperature_2m_max = none ∧
    (emptyRecord "2025-11-12").wave_height_max = none ∧
    ((∃ c', updateWeatherPrecipChart (some chart0)
        (some [emptyRecord "2025-11-12"]) = some c' ∧
      firstPoint c' 0 = some (some 0)) ∧
    (∃ c', updateWeatherDailyChart (some chart0)
        (some [emptyRecord "2025-11-12"]) = some c' ∧
      firstPoint c' 0 = some none) ∧
    (∃ c', updateMarineDailyWaveChart (some chart0)
        (some [emptyRecord "2025-11-12"]) = some c' ∧
      firstPoint c' 0 = some (some 0))) :=
  ⟨rfl, rfl, rfl,
    c8_missing_field_defaults (emptyRecord "2025-11-12") chart0 [] rfl rfl rfl⟩

/-- C4 counterexample: a response body with success true and data equal to
the empty array does not yield a widget with zero labels and does not put
the widget into a no-data placeholder state — on the concrete dashboard
state `c4state` the load is a complete no-op, so the widget retains its
previous (nonempty) labels and values. -/
theorem c4_empty_not_nodata :
    loadDailyWeatherStep c4state (.ok ⟨true, some [], none⟩) = c4state ∧
    c4state.weatherDailyChart = some c4chart ∧
    c4chart.labels.length ≠ 0 :=
  ⟨rfl, rfl, by decide⟩

/-- C4 amended: for every response body with success true and data equal
to the empty array, the load is a no-op — the chart update functions
return at their empty-payload guard, so the widget keeps its previous
labels and values (no error state is rendered, but no empty no-data
series replaces the old data either). -/
theorem c4_empty_data_noop (s : DashState) (d : Option String)
    (chart : Option ChartData) :
    loadDailyWeatherStep s (.ok ⟨true, some [], d⟩) = s ∧
    updateWeatherDailyChart chart (some []) = chart ∧
    updateWeatherPrecipChart chart (some []) = chart := by
  obtain ⟨wd, wp, aq, mw, sat, ci, gb⟩ := s
  refine ⟨?_, ?_, ?_⟩
  · cases wd <;> cases wp <;> rfl
  · cases chart <;> rfl
  · cases chart <;> rfl

/-- C3: for each domain of the five, a failing fetch in a cycle leaves
every other domain's widget area exactly as that same cycle leaves it
with the domain's own outcome (so the siblings' last-known-good series
are untouched by the failure), leaves the failing domain's own chart data
unchanged, renders the error — for the domains that display one — only
into that domain's own widget area, and never writes a shared global
banner.  The cycle function is total, so no failure makes the refresh
entry point throw. -/
theorem c3_domain_isolation (s : DashState) (o : CycleOutcomes) (e : FetchError) :
    ((refreshCycleApply s { o with weather := .error e }).weatherDailyChart
        = s.weatherDailyChart ∧
     (refreshCycleApply s { o with weather := .error e }).weatherPrecipChart
        = s.weatherPrecipChart ∧
     (refreshCycleApply s { o with weather := .error e }).currentAirQualityCards
        = (refreshCycleApply s o).currentAirQualityCards ∧
     (refreshCycleApply s { o with weather := .error e }).marineDailyWaveChart
        = (refreshCycleApply s o).marineDailyWaveChart ∧
     (refreshCycleApply s { o with weather := .error e }).satelliteDailyChart
        = (refreshCycleApply s o).satelliteDailyChart ∧
     (refreshCycleApply s { o with weather := .error e }).climateModelInfo
        = (refreshCycleApply s o).climateModelInfo ∧
     (refreshCycleApply s { o with weather := .error e }).globalErrorBanner
        = s.globalErrorBanner) ∧
    ((refreshCycleApply s { o with air := .error e }).currentAirQualityCards
        = Slot.errorMsg e.message ∧
     (refreshCycleApply s { o with air := .error e }).weatherDailyChart
        = (refreshCycleApply s o).weatherDailyChart ∧
     (refreshCycleApply s { o with air := .error e }).weatherPrecipChart
        = (refreshCycleApply s o).weatherPrecipChart ∧
     (refreshCycleApply s { o with air := .error e }).marineDailyWaveChart
        = (refreshCycleApply s o).marineDailyWaveChart ∧
     (refreshCycleApply s { o with air := .error e }).satelliteDailyChart
        = (refreshCycleApply s o).satelliteDailyChart ∧
     (refreshCycleApply s { o with air := .error e }).climateModelInfo
        = (refreshCycleApply s o).climateModelInfo ∧
     (refreshCycleApply s { o with air := .error e }).globalErrorBanner
        = s.globalErrorBanner) ∧
    ((refreshCycleApply s { o with marine := .error e }).marineDailyWaveChart
        = s.marineDailyWaveChart ∧
     (refreshCycleApply s { o with marine := .error e }).weatherDailyChart
        = (refreshCycleApply s o).weatherDailyChart ∧
     (refreshCycleApply s { o with marine := .error e }).weatherPrecipChart
        = (refreshCycleApply s o).weatherPrecipChart ∧
     (refreshCycleApply s { o with marine := .error e }).currentAirQualityCards
        = (refreshCycleApply s o).currentAirQualityCards ∧
     (refreshCycleApply s { o with marine := .error e }).satelliteDailyChart
        = (refreshCycleApply s o).satelliteDailyChart ∧
     (refreshCycleApply s { o with marine := .error e }).climateModelInfo
        = (refreshCycleApply s o).climateModelInfo ∧
     (refreshCycleApply s { o with marine := .error e }).globalErrorBanner
        = s.globalErrorBanner) ∧
    ((refreshCycleApply s { o with satellite := .error e }).satelliteDailyChart
        = s.satelliteDailyChart ∧
     (refreshCycleApply s { o with satellite := .error e }).weatherDailyChart
        = (refreshCycleApply s o).weatherDailyChart ∧
     (refreshCycleApply s { o with satellite := .error e }).weatherPrecipChart
        = (refreshCycleApply s o).weatherPrecipChart ∧
     (refreshCycleApply s { o with satellite := .error e }).currentAirQualityCards
        = (refreshCycleApply s o).currentAirQualityCards ∧
     (refreshCycleApply s { o with satellite := .error e }).marineDailyWaveChart
        = (refreshCycleApply s o).marineDailyWaveChart ∧
     (refreshCycleApply s { o with satellite := .error e }).climateModelInfo
        = (refreshCycleApply s o).climateModelInfo ∧
     (refreshCycleApply s { o with satellite := .error e }).globalErrorBanner
        = s.globalErrorBanner) ∧
    ((refreshCycleApply s { o with climate := .error e }).climateModelInfo
        = Slot.errorMsg e.message ∧
     (refreshCycleApply s { o with climate := .error e }).weatherDailyChart
        = (refreshCycleApply s o).weatherDailyChart ∧
     (refreshCycleApply s { o with climate := .error e }).weatherPrecipChart
        = (refreshCycleApply s o).weatherPrecipChart ∧
     (refreshCycleApply s { o with climate := .error e }).currentAirQualityCards
        = (refreshCycleApply s o).currentAirQualityCards ∧
     (refreshCycleApply s { o with climate := .error e }).marineDailyWaveChart
        = (refreshCycleApply s o).marineDailyWaveChart ∧
     (refreshCycleApply s { o with climate := .error e }).satelliteDailyChart
        = (refreshCycleApply s o).satelliteDailyChart ∧
     (refreshCycleApply s { o with climate := .error e }).globalErrorBanner
        = s.globalErrorBanner) := by
  simp [refreshCycleApply_eq, weatherDailyAfter, weatherPrecipAfter, airCardsAfter,
    marineWaveAfter, satelliteAfter, climateInfoAfter]

/-- C2 counterexample: the refresh entry point is not a two-state machine
and an invocation during a running cycle is not a no-op — in `c2state`
a fetch of the previous cycle is still in flight, yet invoking
`refreshAllCharts` launches a new fetch. -/
theorem c2_not_coalesced :
    c2state.pending = [⟨0, 100⟩] ∧
    (refreshAllChartsO c2state).pending = [⟨0, 100⟩, ⟨1, 100⟩] :=
  ⟨rfl, rfl⟩

/-- C2 amended: the orchestrator keeps no Idle/Refreshing guard state:
whenever the active location resolves against the saved-location list,
an invocation of the refresh entry point launches a fresh fetch
unconditionally — also while fetches of an earlier cycle are still in
flight; concurrent invocations are never coalesced. -/
theorem c2_always_launches (s : OrchState) (act : ℕ) (ul : UserLocation)
    (h1 : s.activeLocationId = some act)
    (h2 : s.userLocations.find? (fun u => u.user_location_id == act) = some ul) :
    (refreshAllChartsO s).pending = s.pending ++ [⟨s.cycleCount, ul.location_id⟩] ∧
    (refreshAllChartsO s).cycleCount = s.cycleCount + 1 := by
  simp [refreshAllChartsO, launchDailyWeather, h1, h2]

/-- C2 amended, witness: evaluated on the concrete state with a fetch of
the previous cycle still in flight. -/
theorem c2_always_launches_witness :
    c2state.activeLocationId = some 1 ∧
    c2state.userLocations.find? (fun u => u.user_location_id == 1)
      = some ⟨1, 100⟩ ∧
    ((refreshAllChartsO c2state).pending
        = c2state.pending ++ [⟨c2state.cycleCount, 100⟩] ∧
     (refreshAllChartsO c2state).cycleCount = c2state.cycleCount + 1) :=
  ⟨rfl, rfl, c2_always_launches c2state 1 ⟨1, 100⟩ rfl rfl⟩

/-- C1 counterexample: the stale-response guard the claim asserts does not
exist.  Concrete trace: cycle 0 is launched for the first location, the
user switches to the second location (cycle 1), cycle 1's response for
the new location arrives and is applied, then cycle 0's late response for
the previous location arrives — and overwrites the newer data instead of
being discarded: the widget ends up showing the abandoned location's
series. -/
theorem c1_stale_overwrite :
    c1s3.weatherDailyChart = some ⟨["Feb 2"], [[some 20], [some 15]]⟩ ∧
    c1s4.weatherDailyChart = some ⟨["Jan 1"], [[some 10], [some 5]]⟩ ∧
    c1s4.weatherDailyChart ≠ c1s3.weatherDailyChart :=
  ⟨rfl, rfl, by decide⟩

/-- C1 amended: there is no staleness guard — when the response of any
pending fetch arrives, its result is applied to the widget
unconditionally, whether or not a newer cycle (possibly for a different
location) has started or already applied its result; the effective policy
is last write wins in arrival order, and pending results for a previous
location are applied on arrival. -/
theorem c1_applied_on_arrival (s : OrchState) (req : PendingFetch)
    (outcome : Except FetchError (Envelope (List DailyRecord)))
    (h : s.pending.contains req = true) :
    (settleDailyWeather s req outcome).weatherDailyChart
      = applyDailyWeatherResponse s.weatherDailyChart outcome ∧
    (settleDailyWeather s req outcome).pending = s.pending.erase req ∧
    (settleDailyWeather s req outcome).activeLocationId = s.activeLocationId := by
  simp [settleDailyWeather, h]

/-- C1 amended, witness: evaluated at the trace state in which the newer
cycle has already applied its result and the stale fetch is still
pending. -/
theorem c1_applied_on_arrival_witness :
    c1s3.pending.contains ⟨0, 100⟩ = true ∧
    ((settleDailyWeather c1s3 ⟨0, 100⟩ (okDaily [recA])).weatherDailyChart
        = applyDailyWeatherResponse c1s3.weatherDailyChart (okDaily [recA]) ∧
     (settleDailyWeather c1s3 ⟨0, 100⟩ (okDaily [recA])).pending
        = c1s3.pending.erase ⟨0, 100⟩ ∧
     (settleDailyWeather c1s3 ⟨0, 100⟩ (okDaily [recA])).activeLocationId
        = c1s3.activeLocationId) :=
  ⟨rfl, c1_applied_on_arrival c1s3 ⟨0, 100⟩ (okDaily [recA]) rfl⟩
